import Mathlib

/-!
Verification development for the `ackermann_steering_controller` package
(`src/ackermann_steering_controller.cpp`).

The controller's numeric state and per-cycle computation are embedded
shallowly over `ℝ` (the C++ code computes with IEEE doubles; the claims
under study are about the formulas and the control flow, which we model
in exact real arithmetic, with Mathlib's totalized `tan`, `arctan`,
`sqrt` and division-by-zero conventions standing in for the partial
operations).  A sensor reading carries an explicit `isnan` flag
mirroring `std::isnan` on a double.

Publishing (the odometry message / tf block, lines 429-457 of the
source) is pure output I/O and is not modelled; everything else that
`update`, `brake` and `cmdVelCallback` read or write is a field of
`ControllerState`.
-/

namespace AckermannSteering

open Real

/-- A velocity command as stored in the realtime channel:
mirrors `Commands { double lin; double ang; ros::Time stamp; }`. -/
structure Commands where
  lin : ℝ
  ang : ℝ
  stamp : ℝ

/-- The last value commanded on each hardware joint handle
(`setCommand` writes these; they persist across cycles). -/
structure Joints where
  right_rear_wheel : ℝ
  left_rear_wheel : ℝ
  right_front_wheel : ℝ
  left_front_wheel : ℝ
  front_steer : ℝ
  left_front_steer : ℝ
  right_front_steer : ℝ

/-- The all-zero joint command set written by `brake()`. -/
def Joints.zero : Joints := ⟨0, 0, 0, 0, 0, 0, 0⟩

/-- Odometry estimator state.  The `Odometry` class itself is not part
of the sources under study (only its call sites are); its state is the
pose plus the bookkeeping the spec describes. -/
structure Odometry where
  x : ℝ
  y : ℝ
  heading : ℝ
  wheel_old_pos : ℝ
  stamp : ℝ
  wheel_separation_h : ℝ
  wheel_radius : ℝ

/-- Modelled from the spec: `OdometryEstimator.update` (closed-loop) is
not under `src/`; per the spec it scales the rear-wheel position delta
by the wheel radius and the supplied gain into a linear displacement,
derives the heading delta from the steer-angle curvature times that
displacement, and Euler-integrates the pose. -/
noncomputable def Odometry.update (o : Odometry)
    (wheelPos steerAngle time gain : ℝ) : Odometry :=
  let delta := (wheelPos - o.wheel_old_pos) * o.wheel_radius * gain
  let dheading := delta * Real.tan steerAngle / o.wheel_separation_h
  { o with
    x := o.x + delta * Real.cos o.heading
    y := o.y + delta * Real.sin o.heading
    heading := o.heading + dheading
    wheel_old_pos := wheelPos
    stamp := time }

/-- Modelled from the spec: `OdometryEstimator.updateOpenLoop` is not
under `src/`; per the spec it directly integrates the commanded
velocity pair over the elapsed time. -/
noncomputable def Odometry.updateOpenLoop (o : Odometry)
    (linear angular time : ℝ) : Odometry :=
  let dt := time - o.stamp
  { o with
    x := o.x + linear * dt * Real.cos o.heading
    y := o.y + linear * dt * Real.sin o.heading
    heading := o.heading + angular * dt
    stamp := time }

/-- Modelled from the spec: the `SpeedLimiter` bound set (the limiter
implementation is repository code that is not under `src/`; the update
loop's calls to it are commented out). -/
structure SpeedLimiter where
  has_velocity_limits : Bool
  has_acceleration_limits : Bool
  has_jerk_limits : Bool
  min_velocity : ℝ
  max_velocity : ℝ
  min_acceleration : ℝ
  max_acceleration : ℝ
  min_jerk : ℝ
  max_jerk : ℝ

/-- Clamp `x` into `[lo, hi]`. -/
noncomputable def clampR (x lo hi : ℝ) : ℝ := min (max x lo) hi

/-- Modelled from the spec: jerk bound, derived from the two previous
values and the time step. -/
noncomputable def SpeedLimiter.limitJerk (l : SpeedLimiter)
    (v v0 v1 dt : ℝ) : ℝ :=
  if l.has_jerk_limits then
    let dv := v - v0
    let dv0 := v0 - v1
    let dt2 := 2 * dt * dt
    v0 + dv0 + clampR (dv - dv0) (l.min_jerk * dt2) (l.max_jerk * dt2)
  else v

/-- Modelled from the spec: acceleration bound, derived from the
previous value and the time step. -/
noncomputable def SpeedLimiter.limitAcceleration (l : SpeedLimiter)
    (v v0 dt : ℝ) : ℝ :=
  if l.has_acceleration_limits then
    v0 + clampR (v - v0) (l.min_acceleration * dt) (l.max_acceleration * dt)
  else v

/-- Modelled from the spec: absolute velocity bound. -/
noncomputable def SpeedLimiter.limitVelocity (l : SpeedLimiter) (v : ℝ) : ℝ :=
  if l.has_velocity_limits then clampR v l.min_velocity l.max_velocity
  else v

/-- Modelled from the spec: `MotionLimiter.limit(desired, prev1, prev2,
dt)` — if `dt ≤ 0` the desired value is returned unmodified; otherwise
the jerk, acceleration and velocity bounds are applied in that order,
each optional. -/
noncomputable def SpeedLimiter.limit (l : SpeedLimiter)
    (v v0 v1 dt : ℝ) : ℝ :=
  if dt ≤ 0 then v
  else l.limitVelocity (l.limitAcceleration (l.limitJerk v v0 v1 dt) v0 dt)

/-- A double-valued sensor reading: the value together with its
`std::isnan` flag. -/
structure Sensor where
  val : ℝ
  isnan : Bool

/-- All controller member state read or written by `update`, `brake`
and `cmdVelCallback` (source lines 405-606). -/
structure ControllerState where
  open_loop : Bool
  wheel_separation_h : ℝ
  wheel_separation_l : ℝ
  wheel_radius : ℝ
  steer_pos_multiplier : ℝ
  cmd_vel_timeout : ℝ
  allow_multiple_cmd_vel_publishers : Bool
  limiter_lin : SpeedLimiter
  limiter_ang : SpeedLimiter
  command : Commands
  command_struct : Commands
  last0_cmd : Commands
  last1_cmd : Commands
  odometry : Odometry
  joints : Joints
  running : Bool
  last_error_time : ℝ

/-- `atan((2·length·sin θ) / (2·length·cos θ − width·sin θ))` — the
"right wheel steer angle" of source lines 487-489. -/
noncomputable def rightWheelSteerAngle (length width θ : ℝ) : ℝ :=
  Real.arctan ((2 * length * Real.sin θ) /
    (2 * length * Real.cos θ - width * Real.sin θ))

/-- `atan((2·length·sin θ) / (2·length·cos θ + width·sin θ))` — the
"left wheel steer angle" of source lines 491-493. -/
noncomputable def leftWheelSteerAngle (length width θ : ℝ) : ℝ :=
  Real.arctan ((2 * length * Real.sin θ) /
    (2 * length * Real.cos θ + width * Real.sin θ))

/-- `abs(wheel_separation_l_ * tan(M_PI/2 - theta))` — the turning
radius of source line 508 (`length` is the `wheel_separation_l_`
field). -/
noncomputable def turningRadius (length θ : ℝ) : ℝ :=
  |length * Real.tan (Real.pi / 2 - θ)|

/-- `(sqrt((r + length/2)² + width²) / r) * lin` — source lines
510-513. -/
noncomputable def rightFrontWheelOmega (length width θ lin : ℝ) : ℝ :=
  (Real.sqrt ((turningRadius length θ + length / 2) ^ 2 + width ^ 2) /
    turningRadius length θ) * lin

/-- `(sqrt((r - length/2)² + width²) / r) * lin` — source lines
515-517. -/
noncomputable def leftFrontWheelOmega (length width θ lin : ℝ) : ℝ :=
  (Real.sqrt ((turningRadius length θ - length / 2) ^ 2 + width ^ 2) /
    turningRadius length θ) * lin

/-- `((r + length/2) / r) * lin` — source lines 519-520. -/
noncomputable def rightRearWheelOmega (length θ lin : ℝ) : ℝ :=
  ((turningRadius length θ + length / 2) / turningRadius length θ) * lin

/-- `((r - length/2) / r) * lin` — source lines 521-522. -/
noncomputable def leftRearWheelOmega (length θ lin : ℝ) : ℝ :=
  ((turningRadius length θ - length / 2) / turningRadius length θ) * lin

/-- The "MOVE ROBOT" half of `update` (source lines 459-550): read the
latest command from the realtime channel, zero it if older than
`cmd_vel_timeout_`, shift the two-entry command history (the
`limiter_lin_`/`limiter_ang_` calls at lines 474-475 are commented out
in the source and therefore absent here), compute the two front steer
angles and the four wheel angular velocities, and write the joint
commands — own-side when `theta > 0`, cross-assigned otherwise, with
the steer angle computed as "right" always sent to the left steer
joint and vice versa. -/
noncomputable def motionPhase (s : ControllerState) (time _period : ℝ) :
    ControllerState :=
  let curr_cmd0 := s.command
  let dt := time - curr_cmd0.stamp
  let curr_cmd :=
    if dt > s.cmd_vel_timeout then { curr_cmd0 with lin := 0, ang := 0 }
    else curr_cmd0
  let s1 := { s with last1_cmd := s.last0_cmd, last0_cmd := curr_cmd }
  let theta := curr_cmd.ang
  let length := s.wheel_separation_l
  let width := s.wheel_separation_h
  let jointsSteer :=
    { s1.joints with
      left_front_steer := rightWheelSteerAngle length width theta
      right_front_steer := leftWheelSteerAngle length width theta
      front_steer := curr_cmd.ang }
  -- `wheel_vel = curr_cmd.lin / wheel_radius_` (source lines 505-506)
  -- is computed but never used by the source; it is omitted here.
  let jointsWheels :=
    if theta > 0 then
      { jointsSteer with
        right_rear_wheel := rightRearWheelOmega length theta curr_cmd.lin /
          s.wheel_radius
        left_rear_wheel := leftRearWheelOmega length theta curr_cmd.lin /
          s.wheel_radius
        right_front_wheel :=
          rightFrontWheelOmega length width theta curr_cmd.lin /
            s.wheel_radius
        left_front_wheel :=
          leftFrontWheelOmega length width theta curr_cmd.lin /
            s.wheel_radius }
    else
      { jointsSteer with
        right_rear_wheel := leftRearWheelOmega length theta curr_cmd.lin /
          s.wheel_radius
        left_rear_wheel := rightRearWheelOmega length theta curr_cmd.lin /
          s.wheel_radius
        right_front_wheel :=
          leftFrontWheelOmega length width theta curr_cmd.lin /
            s.wheel_radius
        left_front_wheel :=
          rightFrontWheelOmega length width theta curr_cmd.lin /
            s.wheel_radius }
  { s1 with joints := jointsWheels }

/-- One control cycle, `AckermannSteeringController::update` (source
lines 405-550).  In closed-loop mode the rear-wheel position and front
steer angle are read, the odometry gain `|r − L/2| / |r|` is formed
from the raw steer reading, and — unless either reading is NaN, in
which case the function returns immediately, leaving every field
unchanged — the odometry is updated with the multiplier-scaled steer
angle before the motion phase runs. -/
noncomputable def update (s : ControllerState) (wheelS steerS : Sensor)
    (time period : ℝ) : ControllerState :=
  if s.open_loop then
    motionPhase
      { s with
        odometry := s.odometry.updateOpenLoop s.last0_cmd.lin s.last0_cmd.ang
          time }
      time period
  else if wheelS.isnan || steerS.isnan then s
  else
    let wheel_pos := wheelS.val
    let steer_pos := steerS.val
    let r := s.wheel_separation_l * Real.tan (Real.pi / 2 - steer_pos)
    let r_right := |r - s.wheel_separation_l / 2|
    let gain := r_right / |r|
    motionPhase
      { s with
        odometry := s.odometry.update wheel_pos
          (steer_pos * s.steer_pos_multiplier) time gain }
      time period

/-- `AckermannSteeringController::brake` (source lines 565-577): zero
all four wheel velocity commands and all three steer position
commands. -/
def brake (s : ControllerState) : ControllerState :=
  { s with joints := Joints.zero }

/-- `AckermannSteeringController::cmdVelCallback` (source lines
579-606).  Returns the new state together with whether the
multiple-publisher violation was actually reported this call.  The
report uses `ROS_ERROR_STREAM_THROTTLE_NAMED(1.0, ...)`; the throttle
itself is library code, modelled from the spec's "reported once per
occurrence (rate-limited)": it fires only when a full 1.0 s window has
elapsed since the last fired report. -/
noncomputable def cmdVelCallback (s : ControllerState) (cmdLin cmdAng now : ℝ)
    (numPublishers : ℕ) : ControllerState × Bool :=
  if s.running then
    if !s.allow_multiple_cmd_vel_publishers && numPublishers > 1 then
      let reported := s.last_error_time + 1 ≤ now
      (brake
        { s with
          last_error_time := if reported then now else s.last_error_time },
        reported)
    else
      let cs : Commands := { ang := cmdAng, lin := cmdLin, stamp := now }
      ({ s with command_struct := cs, command := cs }, false)
  else (s, false)

/-- The geometry-parameter part of `AckermannSteeringController::init`
(source lines 320-333): `wheel_separation_h_` and `wheel_separation_l_`
are both read with `getParam("wheel_separation_h", ...)` — the same
configuration key — and `wheel_radius_` from `"wheel_radius"`; if any
lookup fails, `init` returns `false` (here: `none`). -/
def init (cfg : String → Option ℝ) (s : ControllerState) :
    Option ControllerState :=
  match cfg "wheel_separation_h", cfg "wheel_separation_h",
      cfg "wheel_radius" with
  | some h, some l, some r =>
    some { s with
      wheel_separation_h := h
      wheel_separation_l := l
      wheel_radius := r }
  | _, _, _ => none

/-- A `SpeedLimiter` with every bound disabled (the controller's
constructor default). -/
def noLimits : SpeedLimiter := ⟨false, false, false, 0, 0, 0, 0, 0, 0⟩

/-- A concrete odometry state used by the concrete-input theorems. -/
def exOdometry : Odometry := ⟨0, 0, 0, 0, 0, 1, 1⟩

/-- A concrete controller state used by the concrete-input theorems:
closed loop, unit geometry, fresh zero command, all joints at zero. -/
def exState : ControllerState where
  open_loop := false
  wheel_separation_h := 1
  wheel_separation_l := 1
  wheel_radius := 1
  steer_pos_multiplier := 1
  cmd_vel_timeout := 1
  allow_multiple_cmd_vel_publishers := true
  limiter_lin := noLimits
  limiter_ang := noLimits
  command := ⟨0, 0, 0⟩
  command_struct := ⟨0, 0, 0⟩
  last0_cmd := ⟨0, 0, 0⟩
  last1_cmd := ⟨0, 0, 0⟩
  odometry := exOdometry
  joints := Joints.zero
  running := true
  last_error_time := 0

/-- A concrete configuration providing the two keys `init` looks up. -/
noncomputable def exCfg : String → Option ℝ := fun k =>
  if k = "wheel_separation_h" then some 1
  else if k = "wheel_radius" then some (1 / 10) else none

/-- The state produced by a successful `init` run on `exCfg` from
`exState`. -/
noncomputable def exInitState : ControllerState :=
  { exState with
    wheel_separation_h := 1
    wheel_separation_l := 1
    wheel_radius := 1 / 10 }

/-- C1 (counterexample): with the steer sensor reading NaN, the cycle
does NOT execute the motion phase: the previously commanded virtual
steer setpoint `7` stays on the joint, whereas a motion phase run this
cycle would have written the fresh command's angle `0`. -/
theorem c1_counterexample :
    (update { exState with joints := { Joints.zero with front_steer := 7 } }
        ⟨0, false⟩ ⟨0, true⟩ 0 1).joints.front_steer = 7 ∧
      (motionPhase
          { exState with joints := { Joints.zero with front_steer := 7 } }
          0 1).joints.front_steer = 0 ∧
      (7 : ℝ) ≠ 0 := by
  refine ⟨?_, ?_, by norm_num⟩
  · simp [update, exState]
  · norm_num [motionPhase, exState]

/-- C1 (amended): in closed-loop mode, when either sensor reading is
NaN the controller skips the ENTIRE remainder of the cycle — the
odometry phase and the motion phase alike — leaving every piece of
state (pose, command history, previously commanded joint setpoints)
unchanged. -/
theorem c1_nan_skips_entire_cycle (s : ControllerState)
    (wheelS steerS : Sensor) (time period : ℝ)
    (hol : s.open_loop = false)
    (hnan : wheelS.isnan = true ∨ steerS.isnan = true) :
    update s wheelS steerS time period = s := by
  rcases hnan with h | h <;> simp [update, hol, h]

/-- C1 (witness): the amended theorem at a concrete NaN input. -/
theorem c1_nan_skips_entire_cycle_witness :
    update exState ⟨0, true⟩ ⟨0, false⟩ 0 1 = exState :=
  c1_nan_skips_entire_cycle exState ⟨0, true⟩ ⟨0, false⟩ 0 1 rfl (Or.inl rfl)

/-- C10: in every closed-loop odometry phase, the gain handed to the
odometry update is `|r − L/2| / |r|` with `r = L·tan(π/2 − steer)`
formed from the RAW measured steer angle, while the steer angle handed
to the same call is the measured value times `steer_pos_multiplier_`;
the multiplier never enters the gain. -/
theorem c10_gain_from_raw_angle (s : ControllerState)
    (wheelS steerS : Sensor) (time period : ℝ)
    (hol : s.open_loop = false)
    (hw : wheelS.isnan = false) (hs : steerS.isnan = false) :
    (update s wheelS steerS time period).odometry =
      s.odometry.update wheelS.val (steerS.val * s.steer_pos_multiplier) time
        (|s.wheel_separation_l * Real.tan (Real.pi / 2 - steerS.val) -
            s.wheel_separation_l / 2| /
          |s.wheel_separation_l * Real.tan (Real.pi / 2 - steerS.val)|) := by
  simp [update, motionPhase, hol, hw, hs]

/-- C10 (witness): the gain/steer-argument theorem at a concrete
input. -/
theorem c10_gain_from_raw_angle_witness :
    (update exState ⟨2, false⟩ ⟨3, false⟩ 5 1).odometry =
      exState.odometry.update 2 (3 * exState.steer_pos_multiplier) 5
        (|exState.wheel_separation_l * Real.tan (Real.pi / 2 - 3) -
            exState.wheel_separation_l / 2| /
          |exState.wheel_separation_l * Real.tan (Real.pi / 2 - 3)|) :=
  c10_gain_from_raw_angle exState ⟨2, false⟩ ⟨3, false⟩ 5 1 rfl rfl rfl

/-- Every non-skipped run of `update` (open-loop, or closed-loop with
both sensor readings non-NaN) is the motion phase applied to the state
with only the odometry advanced. -/
theorem update_run (s : ControllerState) (wheelS steerS : Sensor)
    (time period : ℝ)
    (hrun : s.open_loop = true ∨
      (wheelS.isnan = false ∧ steerS.isnan = false)) :
    ∃ o : Odometry,
      update s wheelS steerS time period =
        motionPhase { s with odometry := o } time period := by
  rcases hrun with hol | ⟨hw, hs⟩
  · exact ⟨s.odometry.updateOpenLoop s.last0_cmd.lin s.last0_cmd.ang time,
      by simp [update, hol]⟩
  · by_cases hol : s.open_loop = true
    · exact ⟨s.odometry.updateOpenLoop s.last0_cmd.lin s.last0_cmd.ang time,
        by simp [update, hol]⟩
    · refine ⟨s.odometry.update wheelS.val
        (steerS.val * s.steer_pos_multiplier) time
        (|s.wheel_separation_l * Real.tan (Real.pi / 2 - steerS.val) -
            s.wheel_separation_l / 2| /
          |s.wheel_separation_l * Real.tan (Real.pi / 2 - steerS.val)|),
        ?_⟩
      simp [update, hol, hw, hs]

/-- With a timed-out command, the motion phase zeroes the command
scalars and emits zero on all four wheels. -/
theorem motionPhase_timeout (s : ControllerState) (time period : ℝ)
    (hto : time - s.command.stamp > s.cmd_vel_timeout) :
    (motionPhase s time period).joints.right_rear_wheel = 0 ∧
      (motionPhase s time period).joints.left_rear_wheel = 0 ∧
      (motionPhase s time period).joints.right_front_wheel = 0 ∧
      (motionPhase s time period).joints.left_front_wheel = 0 ∧
      (motionPhase s time period).last0_cmd.lin = 0 ∧
      (motionPhase s time period).last0_cmd.ang = 0 := by
  simp [motionPhase, hto, leftRearWheelOmega, rightRearWheelOmega,
    leftFrontWheelOmega, rightFrontWheelOmega]

/-- With a fresh command, the motion phase pairs the "right"-computed
steer angle with the left steer joint and vice versa, and assigns the
wheel omegas own-side for `theta > 0`, cross-side otherwise. -/
theorem motionPhase_assignment (s : ControllerState) (time period : ℝ)
    (hfresh : ¬(time - s.command.stamp > s.cmd_vel_timeout)) :
    (motionPhase s time period).joints.left_front_steer =
      rightWheelSteerAngle s.wheel_separation_l s.wheel_separation_h
        s.command.ang ∧
    (motionPhase s time period).joints.right_front_steer =
      leftWheelSteerAngle s.wheel_separation_l s.wheel_separation_h
        s.command.ang ∧
    (0 < s.command.ang →
      (motionPhase s time period).joints.right_rear_wheel =
        rightRearWheelOmega s.wheel_separation_l s.command.ang
          s.command.lin / s.wheel_radius ∧
      (motionPhase s time period).joints.left_rear_wheel =
        leftRearWheelOmega s.wheel_separation_l s.command.ang
          s.command.lin / s.wheel_radius ∧
      (motionPhase s time period).joints.right_front_wheel =
        rightFrontWheelOmega s.wheel_separation_l s.wheel_separation_h
          s.command.ang s.command.lin / s.wheel_radius ∧
      (motionPhase s time period).joints.left_front_wheel =
        leftFrontWheelOmega s.wheel_separation_l s.wheel_separation_h
          s.command.ang s.command.lin / s.wheel_radius) ∧
    (s.command.ang ≤ 0 →
      (motionPhase s time period).joints.right_rear_wheel =
        leftRearWheelOmega s.wheel_separation_l s.command.ang
          s.command.lin / s.wheel_radius ∧
      (motionPhase s time period).joints.left_rear_wheel =
        rightRearWheelOmega s.wheel_separation_l s.command.ang
          s.command.lin / s.wheel_radius ∧
      (motionPhase s time period).joints.right_front_wheel =
        leftFrontWheelOmega s.wheel_separation_l s.wheel_separation_h
          s.command.ang s.command.lin / s.wheel_radius ∧
      (motionPhase s time period).joints.left_front_wheel =
        rightFrontWheelOmega s.wheel_separation_l s.wheel_separation_h
          s.command.ang s.command.lin / s.wheel_radius) := by
  refine ⟨?_, ?_, fun hθ => ?_, fun hθ => ?_⟩
  · by_cases h0 : 0 < s.command.ang <;> simp [motionPhase, hfresh, h0]
  · by_cases h0 : 0 < s.command.ang <;> simp [motionPhase, hfresh, h0]
  · simp [motionPhase, hfresh, hθ]
  · simp [motionPhase, hfresh, not_lt.mpr hθ]

/-- With a fresh command, the motion phase feeds the raw post-cutoff
command into the outputs and history, independent of the limiter
configuration. -/
theorem motionPhase_history (s : ControllerState) (time period : ℝ) :
    (motionPhase s time period).joints.front_steer =
      (if time - s.command.stamp > s.cmd_vel_timeout then 0
        else s.command.ang) ∧
    (motionPhase s time period).last0_cmd =
      (if time - s.command.stamp > s.cmd_vel_timeout then
        { s.command with lin := 0, ang := 0 } else s.command) ∧
    (motionPhase s time period).last1_cmd = s.last0_cmd := by
  by_cases hto : time - s.command.stamp > s.cmd_vel_timeout <;>
    by_cases h0 : 0 < s.command.ang <;>
    simp [motionPhase, hto, h0]

/-- C5: whenever the latest command is older than `cmd_vel_timeout`,
the cycle proceeds with `linear = angular = 0` (that zeroed command is
what enters the history) and the four wheel-speed setpoints emitted
that cycle are exactly `0`. -/
theorem c5_timeout_zeroes_wheels (s : ControllerState)
    (wheelS steerS : Sensor) (time period : ℝ)
    (hrun : s.open_loop = true ∨
      (wheelS.isnan = false ∧ steerS.isnan = false))
    (hto : time - s.command.stamp > s.cmd_vel_timeout) :
    (update s wheelS steerS time period).joints.right_rear_wheel = 0 ∧
      (update s wheelS steerS time period).joints.left_rear_wheel = 0 ∧
      (update s wheelS steerS time period).joints.right_front_wheel = 0 ∧
      (update s wheelS steerS time period).joints.left_front_wheel = 0 ∧
      (update s wheelS steerS time period).last0_cmd.lin = 0 ∧
      (update s wheelS steerS time period).last0_cmd.ang = 0 := by
  obtain ⟨o, ho⟩ := update_run s wheelS steerS time period hrun
  rw [ho]
  simpa using motionPhase_timeout { s with odometry := o } time period hto

/-- C5 (witness): the timeout theorem at a concrete input (command
stamped at `0`, cycle at `2`, timeout `1`). -/
theorem c5_timeout_zeroes_wheels_witness :
    (update exState ⟨0, false⟩ ⟨0, false⟩ 2 1).joints.right_rear_wheel = 0 ∧
      (update exState ⟨0, false⟩ ⟨0, false⟩ 2 1).joints.left_rear_wheel = 0 ∧
      (update exState ⟨0, false⟩ ⟨0, false⟩ 2 1).joints.right_front_wheel
        = 0 ∧
      (update exState ⟨0, false⟩ ⟨0, false⟩ 2 1).joints.left_front_wheel
        = 0 ∧
      (update exState ⟨0, false⟩ ⟨0, false⟩ 2 1).last0_cmd.lin = 0 ∧
      (update exState ⟨0, false⟩ ⟨0, false⟩ 2 1).last0_cmd.ang = 0 :=
  c5_timeout_zeroes_wheels exState ⟨0, false⟩ ⟨0, false⟩ 2 1
    (Or.inr ⟨rfl, rfl⟩) (by norm_num [exState])

/-- C6: the steer angle computed by the "right" formula is commanded
to the physical left front steer joint and the "left" angle to the
physical right one; the wheel angular velocities computed as
right/left go to their own-side physical wheels exactly when
`theta > 0` and are cross-assigned to the opposite physical wheels for
every `theta ≤ 0`. -/
theorem c6_cross_assignment (s : ControllerState) (wheelS steerS : Sensor)
    (time period : ℝ)
    (hrun : s.open_loop = true ∨
      (wheelS.isnan = false ∧ steerS.isnan = false))
    (hfresh : ¬(time - s.command.stamp > s.cmd_vel_timeout)) :
    (update s wheelS steerS time period).joints.left_front_steer =
      rightWheelSteerAngle s.wheel_separation_l s.wheel_separation_h
        s.command.ang ∧
    (update s wheelS steerS time period).joints.right_front_steer =
      leftWheelSteerAngle s.wheel_separation_l s.wheel_separation_h
        s.command.ang ∧
    (0 < s.command.ang →
      (update s wheelS steerS time period).joints.right_rear_wheel =
        rightRearWheelOmega s.wheel_separation_l s.command.ang
          s.command.lin / s.wheel_radius ∧
      (update s wheelS steerS time period).joints.left_rear_wheel =
        leftRearWheelOmega s.wheel_separation_l s.command.ang
          s.command.lin / s.wheel_radius ∧
      (update s wheelS steerS time period).joints.right_front_wheel =
        rightFrontWheelOmega s.wheel_separation_l s.wheel_separation_h
          s.command.ang s.command.lin / s.wheel_radius ∧
      (update s wheelS steerS time period).joints.left_front_wheel =
        leftFrontWheelOmega s.wheel_separation_l s.wheel_separation_h
          s.command.ang s.command.lin / s.wheel_radius) ∧
    (s.command.ang ≤ 0 →
      (update s wheelS steerS time period).joints.right_rear_wheel =
        leftRearWheelOmega s.wheel_separation_l s.command.ang
          s.command.lin / s.wheel_radius ∧
      (update s wheelS steerS time period).joints.left_rear_wheel =
        rightRearWheelOmega s.wheel_separation_l s.command.ang
          s.command.lin / s.wheel_radius ∧
      (update s wheelS steerS time period).joints.right_front_wheel =
        leftFrontWheelOmega s.wheel_separation_l s.wheel_separation_h
          s.command.ang s.command.lin / s.wheel_radius ∧
      (update s wheelS steerS time period).joints.left_front_wheel =
        rightFrontWheelOmega s.wheel_separation_l s.wheel_separation_h
          s.command.ang s.command.lin / s.wheel_radius) := by
  obtain ⟨o, ho⟩ := update_run s wheelS steerS time period hrun
  rw [ho]
  simpa using motionPhase_assignment { s with odometry := o } time period
    hfresh

/-- C6 (witness): the assignment theorem at a concrete fresh
command. -/
theorem c6_cross_assignment_witness :
    (update exState ⟨0, false⟩ ⟨0, false⟩ 0 1).joints.left_front_steer =
      rightWheelSteerAngle exState.wheel_separation_l
        exState.wheel_separation_h exState.command.ang ∧
    (update exState ⟨0, false⟩ ⟨0, false⟩ 0 1).joints.right_front_steer =
      leftWheelSteerAngle exState.wheel_separation_l
        exState.wheel_separation_h exState.command.ang ∧
    (0 < exState.command.ang →
      (update exState ⟨0, false⟩ ⟨0, false⟩ 0 1).joints.right_rear_wheel =
        rightRearWheelOmega exState.wheel_separation_l exState.command.ang
          exState.command.lin / exState.wheel_radius ∧
      (update exState ⟨0, false⟩ ⟨0, false⟩ 0 1).joints.left_rear_wheel =
        leftRearWheelOmega exState.wheel_separation_l exState.command.ang
          exState.command.lin / exState.wheel_radius ∧
      (update exState ⟨0, false⟩ ⟨0, false⟩ 0 1).joints.right_front_wheel =
        rightFrontWheelOmega exState.wheel_separation_l
          exState.wheel_separation_h exState.command.ang
          exState.command.lin / exState.wheel_radius ∧
      (update exState ⟨0, false⟩ ⟨0, false⟩ 0 1).joints.left_front_wheel =
        leftFrontWheelOmega exState.wheel_separation_l
          exState.wheel_separation_h exState.command.ang
          exState.command.lin / exState.wheel_radius) ∧
    (exState.command.ang ≤ 0 →
      (update exState ⟨0, false⟩ ⟨0, false⟩ 0 1).joints.right_rear_wheel =
        leftRearWheelOmega exState.wheel_separation_l exState.command.ang
          exState.command.lin / exState.wheel_radius ∧
      (update exState ⟨0, false⟩ ⟨0, false⟩ 0 1).joints.left_rear_wheel =
        rightRearWheelOmega exState.wheel_separation_l exState.command.ang
          exState.command.lin / exState.wheel_radius ∧
      (update exState ⟨0, false⟩ ⟨0, false⟩ 0 1).joints.right_front_wheel =
        leftFrontWheelOmega exState.wheel_separation_l
          exState.wheel_separation_h exState.command.ang
          exState.command.lin / exState.wheel_radius ∧
      (update exState ⟨0, false⟩ ⟨0, false⟩ 0 1).joints.left_front_wheel =
        rightFrontWheelOmega exState.wheel_separation_l
          exState.wheel_separation_h exState.command.ang
          exState.command.lin / exState.wheel_radius) :=
  c6_cross_assignment exState ⟨0, false⟩ ⟨0, false⟩ 0 1
    (Or.inr ⟨rfl, rfl⟩) (by norm_num [exState])

/-- C2 (counterexample): with an angular velocity limit of `±1/10`
configured and a fresh command of `1/2`, the cycle emits the virtual
steer setpoint `1/2` unlimited, whereas the MotionLimiter output for
that scalar is `1/10` — the limiter is NOT applied (its calls are
commented out in the source). -/
theorem c2_counterexample :
    (update
        { exState with
          limiter_ang :=
            ⟨true, false, false, -(1 / 10), 1 / 10, 0, 0, 0, 0⟩
          command := ⟨0, 1 / 2, 0⟩ }
        ⟨0, false⟩ ⟨0, false⟩ 0 1).joints.front_steer = 1 / 2 ∧
    SpeedLimiter.limit ⟨true, false, false, -(1 / 10), 1 / 10, 0, 0, 0, 0⟩
      (1 / 2) 0 0 1 = 1 / 10 ∧
    (1 / 2 : ℝ) ≠ 1 / 10 := by
  refine ⟨?_, ?_, by norm_num⟩
  · norm_num [update, motionPhase, exState]
  · norm_num [SpeedLimiter.limit, SpeedLimiter.limitVelocity,
      SpeedLimiter.limitAcceleration, SpeedLimiter.limitJerk, clampR,
      max_def, min_def]

/-- C2 (amended): the MotionLimiter is never applied — its invocation
is disabled in the source.  For every limiter configuration the
post-cutoff command scalars pass unchanged into the kinematics (shown
here on the emitted virtual steer setpoint, which equals the raw
post-cutoff angular command), and the two-entry history is shifted
with those unlimited values. -/
theorem c2_limiter_not_applied (s : ControllerState)
    (wheelS steerS : Sensor) (time period : ℝ)
    (hrun : s.open_loop = true ∨
      (wheelS.isnan = false ∧ steerS.isnan = false)) :
    (update s wheelS steerS time period).joints.front_steer =
      (if time - s.command.stamp > s.cmd_vel_timeout then 0
        else s.command.ang) ∧
    (update s wheelS steerS time period).last0_cmd =
      (if time - s.command.stamp > s.cmd_vel_timeout then
        { s.command with lin := 0, ang := 0 } else s.command) ∧
    (update s wheelS steerS time period).last1_cmd = s.last0_cmd := by
  obtain ⟨o, ho⟩ := update_run s wheelS steerS time period hrun
  rw [ho]
  simpa using motionPhase_history { s with odometry := o } time period

/-- C2 (witness): the no-limiter theorem at a concrete input. -/
theorem c2_limiter_not_applied_witness :
    (update exState ⟨0, false⟩ ⟨0, false⟩ 0 1).joints.front_steer =
      (if (0 : ℝ) - exState.command.stamp > exState.cmd_vel_timeout then 0
        else exState.command.ang) ∧
    (update exState ⟨0, false⟩ ⟨0, false⟩ 0 1).last0_cmd =
      (if (0 : ℝ) - exState.command.stamp > exState.cmd_vel_timeout then
        { exState.command with lin := 0, ang := 0 }
        else exState.command) ∧
    (update exState ⟨0, false⟩ ⟨0, false⟩ 0 1).last1_cmd =
      exState.last0_cmd :=
  c2_limiter_not_applied exState ⟨0, false⟩ ⟨0, false⟩ 0 1
    (Or.inr ⟨rfl, rfl⟩)

/-- C3 (counterexample): with wheelbase field `wheel_separation_l_ = 1`
and track-width field `wheel_separation_h_ = 2`, at `θ = π/4` (so
`r = 1`), `lin = 1`, wheel radius `1`, the code emits a right-rear
setpoint of `(r + L/2)/r · lin = 3/2`, whereas the claimed formula
`(r + W/2)/r · lin` gives `2`. -/
theorem c3_counterexample :
    (update
        { exState with
          wheel_separation_h := 2
          command := ⟨1, Real.pi / 4, 0⟩ }
        ⟨0, false⟩ ⟨0, false⟩ 0 1).joints.right_rear_wheel = 3 / 2 ∧
    (turningRadius 1 (Real.pi / 4) + 2 / 2) / turningRadius 1 (Real.pi / 4)
        * 1 / 1 = 2 ∧
    (3 / 2 : ℝ) ≠ 2 := by
  have hr : turningRadius 1 (Real.pi / 4) = 1 := by
    unfold turningRadius
    rw [show Real.pi / 2 - Real.pi / 4 = Real.pi / 4 by ring,
      Real.tan_pi_div_four]
    norm_num
  have hθ : (0 : ℝ) < Real.pi / 4 := by positivity
  refine ⟨?_, by rw [hr]; norm_num, by norm_num⟩
  norm_num [update, motionPhase, exState, rightRearWheelOmega, hr, hθ]

/-- C3 (amended): the code computes the turning radius as
`r = |L·tan(π/2 − θ)|` as claimed, but uses the wheelbase field for
the lateral offsets and the track-width square under the root —
front radii `sqrt((r ± L/2)² + W²)` and rear radii `r ± L/2`.  Because
`init` loads both separation fields from the same key (C9), `L = W` on
every reachable state, and under that hypothesis the emitted setpoints
equal the claimed formulas `sqrt((r ± W/2)² + L²)/r · lin / r_wheel`
and `(r ± W/2)/r · lin / r_wheel` (shown here for `θ > 0`, the
own-side branch). -/
theorem c3_radii_with_equal_separations (s : ControllerState)
    (wheelS steerS : Sensor) (time period : ℝ)
    (hrun : s.open_loop = true ∨
      (wheelS.isnan = false ∧ steerS.isnan = false))
    (hfresh : ¬(time - s.command.stamp > s.cmd_vel_timeout))
    (heq : s.wheel_separation_l = s.wheel_separation_h)
    (hθ : 0 < s.command.ang) :
    (update s wheelS steerS time period).joints.right_rear_wheel =
      (turningRadius s.wheel_separation_l s.command.ang +
          s.wheel_separation_h / 2) /
        turningRadius s.wheel_separation_l s.command.ang *
        s.command.lin / s.wheel_radius ∧
    (update s wheelS steerS time period).joints.left_rear_wheel =
      (turningRadius s.wheel_separation_l s.command.ang -
          s.wheel_separation_h / 2) /
        turningRadius s.wheel_separation_l s.command.ang *
        s.command.lin / s.wheel_radius ∧
    (update s wheelS steerS time period).joints.right_front_wheel =
      Real.sqrt ((turningRadius s.wheel_separation_l s.command.ang +
            s.wheel_separation_h / 2) ^ 2 + s.wheel_separation_l ^ 2) /
        turningRadius s.wheel_separation_l s.command.ang *
        s.command.lin / s.wheel_radius ∧
    (update s wheelS steerS time period).joints.left_front_wheel =
      Real.sqrt ((turningRadius s.wheel_separation_l s.command.ang -
            s.wheel_separation_h / 2) ^ 2 + s.wheel_separation_l ^ 2) /
        turningRadius s.wheel_separation_l s.command.ang *
        s.command.lin / s.wheel_radius := by
  obtain ⟨o, ho⟩ := update_run s wheelS steerS time period hrun
  rw [ho]
  obtain ⟨-, -, hpos, -⟩ :=
    motionPhase_assignment { s with odometry := o } time period hfresh
  obtain ⟨h1, h2, h3, h4⟩ := hpos hθ
  refine ⟨?_, ?_, ?_, ?_⟩
  · rw [h1]; simp [rightRearWheelOmega, heq]
  · rw [h2]; simp [leftRearWheelOmega, heq]
  · rw [h3]; simp [rightFrontWheelOmega, heq]
  · rw [h4]; simp [leftFrontWheelOmega, heq]

/-- C3 (witness): the amended radii theorem at `θ = π/4` on the unit
geometry. -/
theorem c3_radii_with_equal_separations_witness :
    (update { exState with command := ⟨1, Real.pi / 4, 0⟩ }
        ⟨0, false⟩ ⟨0, false⟩ 0 1).joints.right_rear_wheel =
      (turningRadius 1 (Real.pi / 4) + 1 / 2) /
        turningRadius 1 (Real.pi / 4) * 1 / 1 ∧
    (update { exState with command := ⟨1, Real.pi / 4, 0⟩ }
        ⟨0, false⟩ ⟨0, false⟩ 0 1).joints.left_rear_wheel =
      (turningRadius 1 (Real.pi / 4) - 1 / 2) /
        turningRadius 1 (Real.pi / 4) * 1 / 1 ∧
    (update { exState with command := ⟨1, Real.pi / 4, 0⟩ }
        ⟨0, false⟩ ⟨0, false⟩ 0 1).joints.right_front_wheel =
      Real.sqrt ((turningRadius 1 (Real.pi / 4) + 1 / 2) ^ 2 +
          1 ^ 2) / turningRadius 1 (Real.pi / 4) * 1 / 1 ∧
    (update { exState with command := ⟨1, Real.pi / 4, 0⟩ }
        ⟨0, false⟩ ⟨0, false⟩ 0 1).joints.left_front_wheel =
      Real.sqrt ((turningRadius 1 (Real.pi / 4) - 1 / 2) ^ 2 +
          1 ^ 2) / turningRadius 1 (Real.pi / 4) * 1 / 1 :=
  c3_radii_with_equal_separations
    { exState with command := ⟨1, Real.pi / 4, 0⟩ }
    ⟨0, false⟩ ⟨0, false⟩ 0 1 (Or.inr ⟨rfl, rfl⟩)
    (by norm_num [exState]) rfl (by positivity)

/-- C4 (counterexample): there is no `θ = 0` special case.  At `θ = 0`
the cycle's speed formulas divide by `r = |L·tan(π/2)|`, which is
undefined in exact arithmetic (totalized to `0` in this embedding), so
with `lin = 1` and wheel radius `1/10` the emitted right-rear setpoint
is the degenerate `0`, not the straight-drive value
`lin / r_wheel = 10`. -/
theorem c4_counterexample :
    turningRadius 1 0 = 0 ∧
    (update
        { exState with
          wheel_radius := 1 / 10
          command := ⟨1, 0, 0⟩ }
        ⟨0, false⟩ ⟨0, false⟩ 0 1).joints.right_rear_wheel = 0 ∧
    (1 : ℝ) / (1 / 10) = 10 ∧ (0 : ℝ) ≠ 10 := by
  have hr : turningRadius 1 0 = 0 := by
    unfold turningRadius
    rw [sub_zero, Real.tan_pi_div_two]
    norm_num
  refine ⟨hr, ?_, by norm_num, by norm_num⟩
  norm_num [update, motionPhase, exState, rightRearWheelOmega,
    leftRearWheelOmega, turningRadius, Real.tan_pi_div_two]

/-- C4 (amended): when the post-cutoff commanded steering angle is
exactly `0`, the cycle emits zero on both front steering setpoints and
on the virtual steer, and the four wheel-speed setpoints are all equal
— but not by a special case: in the exact-semantics embedding every
wheel formula divides by the degenerate `r = |L·tan(π/2)| = 0`, so all
four setpoints are `0` rather than `lin / r_wheel`. -/
theorem c4_theta_zero_emits (s : ControllerState) (wheelS steerS : Sensor)
    (time period : ℝ)
    (hrun : s.open_loop = true ∨
      (wheelS.isnan = false ∧ steerS.isnan = false))
    (hfresh : ¬(time - s.command.stamp > s.cmd_vel_timeout))
    (hang : s.command.ang = 0) :
    (update s wheelS steerS time period).joints.front_steer = 0 ∧
      (update s wheelS steerS time period).joints.left_front_steer = 0 ∧
      (update s wheelS steerS time period).joints.right_front_steer = 0 ∧
      (update s wheelS steerS time period).joints.right_rear_wheel = 0 ∧
      (update s wheelS steerS time period).joints.left_rear_wheel = 0 ∧
      (update s wheelS steerS time period).joints.right_front_wheel = 0 ∧
      (update s wheelS steerS time period).joints.left_front_wheel = 0 := by
  obtain ⟨o, ho⟩ := update_run s wheelS steerS time period hrun
  rw [ho]
  simp [motionPhase, hfresh, hang, rightWheelSteerAngle,
    leftWheelSteerAngle, rightRearWheelOmega, leftRearWheelOmega,
    rightFrontWheelOmega, leftFrontWheelOmega, turningRadius,
    Real.tan_pi_div_two]

/-- C4 (witness): the zero-steer theorem at a concrete input. -/
theorem c4_theta_zero_emits_witness :
    (update exState ⟨0, false⟩ ⟨0, false⟩ 0 1).joints.front_steer = 0 ∧
      (update exState ⟨0, false⟩ ⟨0, false⟩ 0 1).joints.left_front_steer
        = 0 ∧
      (update exState ⟨0, false⟩ ⟨0, false⟩ 0 1).joints.right_front_steer
        = 0 ∧
      (update exState ⟨0, false⟩ ⟨0, false⟩ 0 1).joints.right_rear_wheel
        = 0 ∧
      (update exState ⟨0, false⟩ ⟨0, false⟩ 0 1).joints.left_rear_wheel
        = 0 ∧
      (update exState ⟨0, false⟩ ⟨0, false⟩ 0 1).joints.right_front_wheel
        = 0 ∧
      (update exState ⟨0, false⟩ ⟨0, false⟩ 0 1).joints.left_front_wheel
        = 0 :=
  c4_theta_zero_emits exState ⟨0, false⟩ ⟨0, false⟩ 0 1
    (Or.inr ⟨rfl, rfl⟩) (by norm_num [exState]) rfl

/-- C7 (counterexample): the same-sign property fails on part of the
claimed domain: at `θ = π/4 ∈ (−π/2, π/2)`, `L = 1 > 0`, `W = 4 > 0`,
the "right" denominator `2L·cos θ − W·sin θ = −√2` is negative, so the
computed right steer angle is negative while `θ` is positive. -/
theorem c7_counterexample :
    0 < Real.pi / 4 ∧ rightWheelSteerAngle 1 4 (Real.pi / 4) < 0 := by
  have h2 : (0 : ℝ) < Real.sqrt 2 := Real.sqrt_pos.mpr (by norm_num)
  refine ⟨by positivity, ?_⟩
  unfold rightWheelSteerAngle
  rw [Real.sin_pi_div_four, Real.cos_pi_div_four]
  have hnum : (0 : ℝ) < 2 * 1 * (Real.sqrt 2 / 2) := by positivity
  have hden : 2 * 1 * (Real.sqrt 2 / 2) - 4 * (Real.sqrt 2 / 2) < 0 := by
    nlinarith
  have harg : 2 * 1 * (Real.sqrt 2 / 2) /
      (2 * 1 * (Real.sqrt 2 / 2) - 4 * (Real.sqrt 2 / 2)) < 0 :=
    div_neg_of_pos_of_neg hnum hden
  have := Real.arctan_strictMono harg
  rwa [Real.arctan_zero] at this

/-- C7 (amended): on the sub-domain where both Ackermann denominators
are positive (`W·|sin θ| < 2L·cos θ`, i.e. `|tan θ| < 2L/W`), both
computed front steer angles carry the sign of `θ`, and the inner
wheel's angle (the "right" one for `θ > 0`, the "left" one for
`θ < 0`) strictly exceeds the outer wheel's in magnitude. -/
theorem c7_sign_and_inner_outer (L W θ : ℝ) (hL : 0 < L) (hW : 0 < W)
    (hlo : -(Real.pi / 2) < θ) (hhi : θ < Real.pi / 2) (_hne : θ ≠ 0)
    (hdom : W * |Real.sin θ| < 2 * L * Real.cos θ) :
    (0 < θ → 0 < leftWheelSteerAngle L W θ ∧
      leftWheelSteerAngle L W θ < rightWheelSteerAngle L W θ) ∧
    (θ < 0 → rightWheelSteerAngle L W θ < 0 ∧
      leftWheelSteerAngle L W θ < rightWheelSteerAngle L W θ) := by
  have habs : 0 ≤ W * |Real.sin θ| := mul_nonneg hW.le (abs_nonneg _)
  have hpos2 : 0 < 2 * L * Real.cos θ := lt_of_le_of_lt habs hdom
  unfold leftWheelSteerAngle rightWheelSteerAngle
  constructor
  · intro hθ
    have hsin : 0 < Real.sin θ :=
      Real.sin_pos_of_pos_of_lt_pi hθ (by linarith [Real.pi_pos])
    have hdr : 0 < 2 * L * Real.cos θ - W * Real.sin θ := by
      rw [abs_of_pos hsin] at hdom; linarith
    have hdl : 0 < 2 * L * Real.cos θ + W * Real.sin θ := by
      have := mul_pos hW hsin; linarith
    have hnum : 0 < 2 * L * Real.sin θ :=
      mul_pos (by linarith : (0 : ℝ) < 2 * L) hsin
    have hpos : Real.arctan 0 <
        Real.arctan (2 * L * Real.sin θ /
          (2 * L * Real.cos θ + W * Real.sin θ)) :=
      Real.arctan_strictMono (div_pos hnum hdl)
    rw [Real.arctan_zero] at hpos
    have hdrdl : 2 * L * Real.cos θ - W * Real.sin θ <
        2 * L * Real.cos θ + W * Real.sin θ := by
      have := mul_pos hW hsin; linarith
    exact ⟨hpos,
      Real.arctan_strictMono
        ((div_lt_div_iff_of_pos_left hnum hdl hdr).mpr hdrdl)⟩
  · intro hθ
    have hsin : Real.sin θ < 0 :=
      Real.sin_neg_of_neg_of_neg_pi_lt hθ (by linarith [Real.pi_pos])
    have hdl : 0 < 2 * L * Real.cos θ + W * Real.sin θ := by
      rw [abs_of_neg hsin] at hdom; linarith
    have hdr : 0 < 2 * L * Real.cos θ - W * Real.sin θ := by
      have := mul_pos hW (neg_pos.mpr hsin); nlinarith
    have hnum : 2 * L * Real.sin θ < 0 :=
      mul_neg_of_pos_of_neg (by linarith : (0 : ℝ) < 2 * L) hsin
    have hneg : Real.arctan (2 * L * Real.sin θ /
        (2 * L * Real.cos θ - W * Real.sin θ)) < Real.arctan 0 :=
      Real.arctan_strictMono (div_neg_of_neg_of_pos hnum hdr)
    rw [Real.arctan_zero] at hneg
    have hdldr : 2 * L * Real.cos θ + W * Real.sin θ <
        2 * L * Real.cos θ - W * Real.sin θ := by
      have := mul_pos hW (neg_pos.mpr hsin); nlinarith
    refine ⟨hneg, Real.arctan_strictMono ?_⟩
    rw [div_lt_div_iff₀ hdl hdr]
    exact mul_lt_mul_of_neg_left hdldr hnum

/-- C7 (witness): the amended sign/inner-outer theorem at `θ = π/4`,
`L = W = 1`. -/
theorem c7_sign_and_inner_outer_witness :
    (0 < Real.pi / 4 → 0 < leftWheelSteerAngle 1 1 (Real.pi / 4) ∧
      leftWheelSteerAngle 1 1 (Real.pi / 4) <
        rightWheelSteerAngle 1 1 (Real.pi / 4)) ∧
    (Real.pi / 4 < 0 → rightWheelSteerAngle 1 1 (Real.pi / 4) < 0 ∧
      leftWheelSteerAngle 1 1 (Real.pi / 4) <
        rightWheelSteerAngle 1 1 (Real.pi / 4)) :=
  c7_sign_and_inner_outer 1 1 (Real.pi / 4) (by norm_num) (by norm_num)
    (by linarith [Real.pi_pos]) (by linarith [Real.pi_pos])
    (by positivity)
    (by
      rw [Real.sin_pi_div_four, Real.cos_pi_div_four,
        abs_of_pos (by positivity : (0 : ℝ) < Real.sqrt 2 / 2)]
      nlinarith [Real.sqrt_pos.mpr (by norm_num : (0 : ℝ) < 2)])

/-- C8: with multiple command publishers disallowed and more than one
publisher detected while running, the command callback brakes (all
seven joint commands zero), never writes the offending command into
the realtime channel or the staging struct, and emits the rate-limited
violation report exactly when the 1-second throttle window has
elapsed, re-arming the window when it fires. -/
theorem c8_policy_violation_brakes (s : ControllerState)
    (cmdLin cmdAng now : ℝ) (nPub : ℕ)
    (hrun : s.running = true)
    (hallow : s.allow_multiple_cmd_vel_publishers = false)
    (hn : 1 < nPub) :
    (cmdVelCallback s cmdLin cmdAng now nPub).1.joints = Joints.zero ∧
    (cmdVelCallback s cmdLin cmdAng now nPub).1.command = s.command ∧
    (cmdVelCallback s cmdLin cmdAng now nPub).1.command_struct =
      s.command_struct ∧
    ((cmdVelCallback s cmdLin cmdAng now nPub).2 = true ↔
      s.last_error_time + 1 ≤ now) ∧
    ((cmdVelCallback s cmdLin cmdAng now nPub).2 = true →
      (cmdVelCallback s cmdLin cmdAng now nPub).1.last_error_time =
        now) := by
  by_cases hrep : s.last_error_time + 1 ≤ now <;>
    simp [cmdVelCallback, brake, hrun, hallow, hn, hrep]

/-- C8 (witness): the policy-violation theorem at a concrete input
(two publishers, report window elapsed). -/
theorem c8_policy_violation_brakes_witness :
    (cmdVelCallback
        { exState with allow_multiple_cmd_vel_publishers := false }
        1 1 5 2).1.joints = Joints.zero ∧
    (cmdVelCallback
        { exState with allow_multiple_cmd_vel_publishers := false }
        1 1 5 2).1.command =
      ({ exState with
          allow_multiple_cmd_vel_publishers := false } :
        ControllerState).command ∧
    (cmdVelCallback
        { exState with allow_multiple_cmd_vel_publishers := false }
        1 1 5 2).1.command_struct =
      ({ exState with
          allow_multiple_cmd_vel_publishers := false } :
        ControllerState).command_struct ∧
    ((cmdVelCallback
        { exState with allow_multiple_cmd_vel_publishers := false }
        1 1 5 2).2 = true ↔
      ({ exState with
          allow_multiple_cmd_vel_publishers := false } :
        ControllerState).last_error_time + 1 ≤ 5) ∧
    ((cmdVelCallback
        { exState with allow_multiple_cmd_vel_publishers := false }
        1 1 5 2).2 = true →
      (cmdVelCallback
          { exState with allow_multiple_cmd_vel_publishers := false }
          1 1 5 2).1.last_error_time = 5) :=
  c8_policy_violation_brakes
    { exState with allow_multiple_cmd_vel_publishers := false }
    1 1 5 2 rfl rfl (by norm_num)

/-- C9: after every successful `init`, the wheelbase field
`wheel_separation_l_` and the track-width field `wheel_separation_h_`
were read from the same configuration key `"wheel_separation_h"` and
are equal, and every subsequent control cycle leaves both fields
untouched — so the forward kinematics and the odometry gain always run
with length equal to width. -/
theorem c9_separations_equal (cfg : String → Option ℝ)
    (s s' : ControllerState) (h : init cfg s = some s') :
    s'.wheel_separation_l = s'.wheel_separation_h ∧
    ∀ (wheelS steerS : Sensor) (time period : ℝ),
      (update s' wheelS steerS time period).wheel_separation_l =
        s'.wheel_separation_l ∧
      (update s' wheelS steerS time period).wheel_separation_h =
        s'.wheel_separation_h := by
  have hpre : ∀ (t : ControllerState) (wS sS : Sensor) (ti pe : ℝ),
      (update t wS sS ti pe).wheel_separation_l = t.wheel_separation_l ∧
      (update t wS sS ti pe).wheel_separation_h = t.wheel_separation_h := by
    intro t wS sS ti pe
    unfold update motionPhase
    split_ifs <;> simp
  refine ⟨?_, fun wS sS ti pe => hpre s' wS sS ti pe⟩
  unfold init at h
  rcases hh : cfg "wheel_separation_h" with _ | v
  · rw [hh] at h; simp at h
  · rcases hr : cfg "wheel_radius" with _ | r
    · rw [hh, hr] at h; simp at h
    · rw [hh, hr] at h
      simp only [Option.some.injEq] at h
      subst h
      rfl

/-- C9 (witness): the same-key theorem on the concrete configuration
`exCfg`, with the cycle-preservation conjunct applied at a concrete
cycle. -/
theorem c9_separations_equal_witness :
    exInitState.wheel_separation_l = exInitState.wheel_separation_h ∧
    ((update exInitState ⟨0, false⟩ ⟨0, false⟩ 0 1).wheel_separation_l =
      exInitState.wheel_separation_l ∧
    (update exInitState ⟨0, false⟩ ⟨0, false⟩ 0 1).wheel_separation_h =
      exInitState.wheel_separation_h) :=
  ⟨(c9_separations_equal exCfg exState exInitState rfl).1,
    (c9_separations_equal exCfg exState exInitState rfl).2
      ⟨0, false⟩ ⟨0, false⟩ 0 1⟩

end AckermannSteering
